import Mathlib

/-!
Verification development for `exynex.py`, the single-file orchestrator of an
Android dynamic-analysis run.  The Python source drives external tools
(`adb`, `iptables`, `mitmdump`, ...) through shell commands, reads their
textual output, and treats a non-empty (or marker-less) output as the failure
signal of the corresponding stage.  We embed the control flow of the file
shallowly:

* each external command's output is an input, collected in an `Env` record;
* the observable side effects that the claims talk about (device egress
  policy, host NAT redirect rule, mitmdump process, app process) are a small
  `NetState` record, updated when a command runs successfully;
* every modelled function returns the list of external commands it issued
  (its trace), the updated state, and an `Except Err` result mirroring the
  Python `raise SystemExit(1)` / `raise ValueError` control flow.  The `Err`
  constructor names follow the spec's error taxonomy for the corresponding
  raise site (in the Python source almost every site raises `SystemExit(1)`).
-/

namespace Exynex

/-- Whitespace in the POSIX `[[:space:]]` sense, which is what `grep`'s
`\S` (non-whitespace) complements. -/
def isWs (c : Char) : Bool :=
  c = ' ' || c = '\t' || c = '\n' || c = '\r' || c = '\x0b' || c = '\x0c'

/-- Check that `pat` occurs at the very beginning of `s`. -/
def startsWithL : List Char → List Char → Bool
  | [], _ => true
  | _ :: _, [] => false
  | p :: ps, c :: cs => p = c && startsWithL ps cs

/-- Check that `pat` occurs somewhere inside `s` (models Python's
`in` test on strings and `grep`'s fixed-substring matching). -/
def hasSub (pat : List Char) : List Char → Bool
  | [] => startsWithL pat []
  | c :: cs => startsWithL pat (c :: cs) || hasSub pat cs

/-- Accumulator-based splitting of a character list into its maximal
whitespace-free tokens (`cur` holds the current token reversed). -/
def splitWsAux (cur : List Char) : List Char → List (List Char)
  | [] => if cur = [] then [] else [cur.reverse]
  | c :: cs =>
      if isWs c then
        if cur = [] then splitWsAux [] cs else cur.reverse :: splitWsAux [] cs
      else
        splitWsAux (c :: cur) cs

/-- Maximal whitespace-delimited tokens of a text. -/
def splitWs (s : List Char) : List (List Char) := splitWsAux [] s

/-- The literal pattern `userId=` of the `grep -o "userId=\S*"` stage in
`get_uid` (exynex.py line 443). -/
def uidPat : List Char := ("userId=").data

/-- The suffix of a token starting at its first occurrence of `userId=`,
if the token contains one. -/
def firstMarkerSuffix : List Char → Option (List Char)
  | [] => none
  | c :: cs =>
      if startsWithL uidPat (c :: cs) then some (c :: cs)
      else firstMarkerSuffix cs

/-- Model of `grep -o "userId=\S*"` applied to the process-manager dump:
for each whitespace-delimited token that contains `userId=`, GNU grep prints
one match running from the first occurrence of `userId=` to the end of the
token (the greedy `\S*` consumes the token's remainder, so a token yields at
most one match), in textual order. -/
def grepUserId (dump : List Char) : List (List Char) :=
  (splitWs dump).filterMap firstMarkerSuffix

/-- Join the matches, each terminated by a newline, exactly as `grep -o`
prints them; this is the string `os.popen(...).read()` hands back to
`get_uid` (exynex.py line 444). -/
def joinNl : List (List Char) → List Char
  | [] => []
  | m :: ms => m ++ '\n' :: joinNl ms

/-- The raw text read from the `adb shell dumpsys package … | grep -o
"userId=\S*"` pipeline for a given dump. -/
def grepOutput (dump : List Char) : List Char := joinNl (grepUserId dump)

/-- Index of the first `'='` in a character list; `none` when there is no
`'='`.  Python's `str.index` returns this index or raises `ValueError`. -/
def idxEq : List Char → Option Nat
  | [] => none
  | c :: cs => if c = '=' then some 0 else (idxEq cs).map (· + 1)

/-- Python's slice `uid[i+1:-1]`: the characters strictly between position
`i` and the last position (empty when the range is empty). -/
def pySlice (uid : List Char) (i : Nat) : List Char :=
  uid.dropLast.drop (i + 1)

/-- Errors of the modelled pipeline.  Names follow the spec's taxonomy for
the corresponding raise site; in the source every one of these is
`raise SystemExit(1)` except `uidValueError`, which is the unhandled
`ValueError` escaping from `uid.index('=')` in `get_uid` (line 446). -/
inductive Err where
  | apkMissing
  | outputWriteFailed
  | jadxFailed
  | deviceUnavailable
  | badgingFailed
  | packageNameFailed
  | appNameFailed
  | versionFailed
  | versionCodeFailed
  | selinuxFailed
  | pushFailed
  | installFailed
  | manifestReadFailed
  | uidValueError
  | uidResolutionFailed
  | deviceNetworkSetupFailed
  | hostNetworkSetupFailed
  | proxyStartFailed
  | launchFailed
  | stopFailed
  | deviceUnsetFailed
  | hostUnsetFailed
  | uninstallFailed
  deriving DecidableEq, Repr

/-- Core of `get_uid` (exynex.py lines 444-455) acting on the raw pipeline
output `raw`: `uid = raw[raw.index('=')+1:-1]`, an unhandled `ValueError`
when `raw` has no `'='`, and `SystemExit(1)` when the slice is empty. -/
def getUidRaw (raw : List Char) : Except Err (List Char) :=
  match idxEq raw with
  | none => .error .uidValueError
  | some i =>
      let uid := pySlice raw i
      if uid = [] then .error .uidResolutionFailed else .ok uid

/-- Model of `get_uid(package)` (exynex.py lines 427-455) as a function of
the process-manager dump text: run the dump through the
`grep -o "userId=\S*"` stage, then slice out the text after the first
`'='` and before the final newline. -/
def get_uid (dump : List Char) : Except Err (List Char) :=
  getUidRaw (grepOutput dump)

/-- Model of `activity(start_timestamp, activity_time)` (exynex.py lines
847-873).  The loop recomputes `passed_time = now - start_timestamp` and
keeps sleeping 2 seconds while `passed_time <= activity_time`.  We idealise
the wall clock: `passed` is the elapsed time since the anchor when the call
is entered, each `time.sleep(2)` advances it by exactly 2, and the loop body
itself takes no time.  The returned value is the total time slept, i.e. how
long the call blocks. -/
def activity (passed T : Nat) : Nat :=
  if _h : passed ≤ T then 2 + activity (passed + 2) T else 0
  termination_by T + 1 - passed
  decreasing_by omega

/-- Host platform, as tested by `sys.platform` in the source.  The host
phase of the firewall setup and the host NAT flush of the teardown exist
only on `linux`; on `darwin` only an unchecked `sysctl` runs. -/
inductive Platform where
  | linux
  | darwin
  | otherOs
  deriving DecidableEq, Repr

/-- External command invocations the modelled pipeline can issue, in the
order the source issues them.  Bulk read-only probe stages
(`perform_static_analysis` internals, `get_geo`) are collapsed into single
events since they only feed the report and never branch the control flow. -/
inductive Cmd where
  | jadxRun
  | adbDevices
  | pmListMagisk
  | aaptBadging
  | pmListPkg
  | setenforce
  | adbPush
  | pmInstall
  | staticAnalysis
  | dumpsysGrep
  | devDrop
  | devAccept
  | hostNatFlush
  | hostFwd4
  | hostFwd6
  | hostNoRedirect
  | hostRedirAdd
  | hostFwdMac
  | mitmSpawn
  | mitmPkill
  | monkeyLaunch
  | psGrep
  | activityWait
  | geoDump
  | forceStop
  | psPid
  | unsetDevAccept
  | unsetDevNatFlush
  | unsetHostNatFlush
  | pmUninstall
  deriving DecidableEq, Repr

/-- Observable device/host state the claims quantify over.  A setup command
changes the state only when it succeeds, i.e. when its captured output is
empty — the code's own success criterion for these commands. -/
structure NetState where
  /-- Device `OUTPUT` chain policy is `DROP` (the default-deny egress
  policy installed by the device phase of `set_iptables`). -/
  devEgressDrop : Bool
  /-- Host `PREROUTING` NAT redirect rule towards the interception port is
  installed. -/
  hostRedirect : Bool
  /-- The mitmdump interception process is alive. -/
  mitmRunning : Bool
  /-- The target application process is running. -/
  appRunning : Bool
  /-- The target package is installed on the device. -/
  appInstalled : Bool
  deriving DecidableEq, Repr

/-- State at process start: nothing applied, nothing running. -/
def initState : NetState :=
  { devEgressDrop := false, hostRedirect := false, mitmRunning := false,
    appRunning := false, appInstalled := false }

/-- Outputs of the external commands and success flags of the file-system
interactions of one run.  Each field is what the corresponding
`os.popen(...).read()` (or file operation) yields; the code branches on
emptiness or on a marker substring of these strings. -/
structure Env where
  platform : Platform := Platform.linux
  /-- `check_command_line`: `os.path.exists(path_to_apk)`. -/
  apkExists : Bool := true
  /-- `check_command_line`: opening the report file for writing succeeded. -/
  outputWritable : Bool := true
  /-- `start_jadx`: the `resources` directory already exists, so jadx is
  skipped. -/
  jadxCached : Bool := false
  /-- `start_jadx`: running jadx raised no `OSError`. -/
  jadxOk : Bool := true
  /-- `check_device`: output of `adb devices | grep device$`. -/
  adbDevicesOut : String := "emulator-5554\tdevice"
  /-- `get_badging`: output of `aapt dump badging`. -/
  badgingOut : String := "badging"
  /-- `get_badging`: extracted package name. -/
  pkgOut : String := "com.example.app"
  /-- `get_badging`: extracted application label. -/
  appNameOut : String := "Example"
  /-- `get_badging`: extracted versionName. -/
  versionOut : String := "1.0"
  /-- `get_badging`: extracted versionCode. -/
  versionCodeOut : String := "1"
  /-- `install_apk`: output of `adb shell pm list packages | grep …`;
  non-empty means the package is already installed. -/
  pmListOut : String := "package:com.example.app"
  /-- `install_apk`: output of the `setenforce 0` command. -/
  selinuxOut : String := ""
  /-- `install_apk`: output of `adb push`, tested for `file pushed`. -/
  pushOut : String := "1 file pushed"
  /-- `install_apk`: output of `pm install`, tested for `Success`. -/
  instOut : String := "Success"
  /-- `perform_static_analysis`: the manifest file was read and parsed. -/
  manifestOk : Bool := true
  /-- `get_uid`: text of `adb shell dumpsys package <pkg>` fed into the
  `grep -o "userId=\S*"` stage. -/
  dumpsysOut : String := "userId=u0_a123"
  /-- `set_iptables`: output of the device `iptables -P OUTPUT DROP`. -/
  retDrop : String := ""
  /-- `set_iptables`: output of the device uid-owner ACCEPT command. -/
  retAccept : String := ""
  /-- `set_iptables`: output of the host `iptables -t nat -F`. -/
  retIpt1 : String := ""
  /-- `set_iptables`: output of the host ipv4 forwarding sysctl (logged,
  never checked). -/
  retIpt2 : String := ""
  /-- `set_iptables`: output of the host ipv6 forwarding sysctl (logged,
  never checked). -/
  retIpt3 : String := ""
  /-- `set_iptables`: output of the host send_redirects sysctl (logged,
  never checked). -/
  retIpt4 : String := ""
  /-- `set_iptables`: output of the host NAT REDIRECT rule insertion. -/
  retIpt5 : String := ""
  /-- `start_mitm`: the spawned mitmdump process has already exited when
  the 5-second settle sleep ends. -/
  mitmExitsEarly : Bool := false
  /-- `start_application`: output of `adb shell ps | grep <pkg>` after the
  launch intent; non-empty means the app is observed running. -/
  psGrepOut : String := "u0_a123 1234 com.example.app"
  /-- `stop_application`: output of `adb shell ps -p <pid> | grep <pid>`
  after `am force-stop`; non-empty means the app is still observed. -/
  psPidOut : String := ""
  /-- `unset_iptables`: output of the device `iptables -P OUTPUT ACCEPT`. -/
  retUnAccept : String := ""
  /-- `unset_iptables`: output of the device `iptables -t nat -F`. -/
  retUnNat : String := ""
  /-- `unset_iptables`: output of the host `iptables -t nat -F`. -/
  retUnHostNat : String := ""
  /-- `remove_apk`: output of `adb shell pm uninstall`, tested for
  `Success`. -/
  uninstallOut : String := "Success"

/-- Result of a modelled stage: trace of issued commands, updated state,
and the control-flow outcome. -/
abbrev Res (α : Type) := List Cmd × NetState × Except Err α

/-- All-defaults environment: every external command behaves as on a
healthy device and host. -/
def goodEnv : Env := {}

/-- Model of `set_iptables(uid, magisk, device_ip, su_pass)` (exynex.py
lines 481-553).  Device phase: run the `OUTPUT DROP` policy command and the
uid-owner ACCEPT command (both run before any check), then abort with the
device error if either produced output.  Host phase (linux only): run the
NAT flush, three sysctls and the REDIRECT rule insertion — all five run —
then abort with the host error if the flush or the rule insertion produced
output; the two sysctl-forwarding outputs and the send_redirects output are
only logged.  On darwin only an unchecked sysctl runs; on other platforms
the host phase is skipped entirely.  The `magisk` flag only changes the
quoting of the device commands, not their effect, and is not modelled.  The
uid-owner exception rule itself is not tracked in `NetState`; the claims
concern the default-deny policy. -/
def set_iptables (env : Env) (s : NetState) : Res Unit :=
  let s1 := if env.retDrop = "" then { s with devEgressDrop := true } else s
  if env.retDrop ≠ "" ∨ env.retAccept ≠ "" then
    ([Cmd.devDrop, Cmd.devAccept], s1, .error .deviceNetworkSetupFailed)
  else
    match env.platform with
    | .linux =>
        let s2 := if env.retIpt1 = "" then { s1 with hostRedirect := false } else s1
        let s3 := if env.retIpt5 = "" then { s2 with hostRedirect := true } else s2
        let tr := [Cmd.devDrop, Cmd.devAccept, Cmd.hostNatFlush, Cmd.hostFwd4,
                   Cmd.hostFwd6, Cmd.hostNoRedirect, Cmd.hostRedirAdd]
        if env.retIpt1 ≠ "" ∨ env.retIpt5 ≠ "" then
          (tr, s3, .error .hostNetworkSetupFailed)
        else
          (tr, s3, .ok ())
    | .darwin =>
        ([Cmd.devDrop, Cmd.devAccept, Cmd.hostFwdMac], s1, .ok ())
    | .otherOs =>
        ([Cmd.devDrop, Cmd.devAccept], s1, .ok ())

/-- Model of `unset_iptables(su_pass, magisk)` (exynex.py lines 556-598).
Device: run the `OUTPUT ACCEPT` policy restore and the device NAT flush
(both run before any check), abort if either produced output.  Host (linux
only): run the host NAT flush, abort if it produced output.  On darwin the
host part is commented out in the source. -/
def unset_iptables (env : Env) (s : NetState) : Res Unit :=
  let s1 := if env.retUnAccept = "" then { s with devEgressDrop := false } else s
  if env.retUnAccept ≠ "" ∨ env.retUnNat ≠ "" then
    ([Cmd.unsetDevAccept, Cmd.unsetDevNatFlush], s1, .error .deviceUnsetFailed)
  else
    match env.platform with
    | .linux =>
        let s2 := if env.retUnHostNat = "" then { s1 with hostRedirect := false } else s1
        if env.retUnHostNat ≠ "" then
          ([Cmd.unsetDevAccept, Cmd.unsetDevNatFlush, Cmd.unsetHostNatFlush],
            s2, .error .hostUnsetFailed)
        else
          ([Cmd.unsetDevAccept, Cmd.unsetDevNatFlush, Cmd.unsetHostNatFlush],
            s2, .ok ())
    | _ =>
        ([Cmd.unsetDevAccept, Cmd.unsetDevNatFlush], s1, .ok ())

/-- Model of `stop_mitm()` (exynex.py lines 647-668): `pkill` the mitmdump
process on linux and darwin, do nothing on other platforms; the result of
`os.system` is ignored, so the function never raises — also when no
mitmdump process exists any more. -/
def stop_mitm (env : Env) (s : NetState) : Res Unit :=
  match env.platform with
  | .otherOs => ([], s, .ok ())
  | _ => ([Cmd.mitmPkill], { s with mitmRunning := false }, .ok ())

/-- Python truthiness of the `Popen.returncode` attribute: `bool(None)` is
`False`, `bool(n)` is `n ≠ 0`. -/
def pyBoolOfReturncode : Option Int → Bool
  | none => false
  | some n => n != 0

/-- Model of `start_mitm(tempdir)` (exynex.py lines 601-644): spawn
mitmdump, `time.sleep(5)`, then read `process.returncode` and raise
`SystemExit(1)` (after a `stop_mitm()`) if it is truthy.  CPython's
`Popen.returncode` attribute is updated only by `poll()`, `wait()` or
`communicate()`; the source calls none of them on this process before the
check, so the attribute is still `None` at the read — regardless of whether
the process has in fact exited during the sleep — and the error branch is
unreachable. -/
def start_mitm (env : Env) (s : NetState) : Res Unit :=
  let s1 := { s with mitmRunning := true }
  let s2 := if env.mitmExitsEarly then { s1 with mitmRunning := false } else s1
  let retcode : Option Int := none
  if pyBoolOfReturncode retcode then
    match stop_mitm env s2 with
    | (tm, sm, _) => (Cmd.mitmSpawn :: tm, sm, .error .proxyStartFailed)
  else
    ([Cmd.mitmSpawn], s2, .ok ())

/-- Model of `start_application(package)` (exynex.py lines 793-844): issue
the monkey launch intent, then check `adb shell ps | grep <pkg>`; an empty
check output means the app is not running, in which case the code calls
`stop_mitm()` and raises `SystemExit(1)`. -/
def start_application (env : Env) (s : NetState) : Res Unit :=
  if env.psGrepOut ≠ "" then
    ([Cmd.monkeyLaunch, Cmd.psGrep], { s with appRunning := true }, .ok ())
  else
    match stop_mitm env { s with appRunning := false } with
    | (tm, sm, _) =>
        ([Cmd.monkeyLaunch, Cmd.psGrep] ++ tm, sm, .error .launchFailed)

/-- Model of `stop_application(package, pid)` (exynex.py lines 876-907):
`am force-stop`, then check `adb shell ps -p <pid> | grep <pid>`; a
non-empty check output means the app is still alive, in which case the code
calls `stop_mitm()` and raises `SystemExit(1)`. -/
def stop_application (env : Env) (s : NetState) : Res Unit :=
  if env.psPidOut = "" then
    ([Cmd.forceStop, Cmd.psPid], { s with appRunning := false }, .ok ())
  else
    match stop_mitm env { s with appRunning := true } with
    | (tm, sm, _) =>
        ([Cmd.forceStop, Cmd.psPid] ++ tm, sm, .error .stopFailed)

/-- Model of `install_apk(package, path_to_apk, magisk)` (exynex.py lines
724-790): if the package is already listed, do nothing; otherwise set
SELinux permissive, push the apk (output must contain `file pushed`), and
run the privileged installer (output must contain `Success`). -/
def install_apk (env : Env) (s : NetState) : Res Unit :=
  if env.pmListOut ≠ "" then
    ([Cmd.pmListPkg], { s with appInstalled := true }, .ok ())
  else if env.selinuxOut ≠ "" then
    ([Cmd.pmListPkg, Cmd.setenforce], s, .error .selinuxFailed)
  else if ¬ hasSub (("file pushed").data) env.pushOut.data then
    ([Cmd.pmListPkg, Cmd.setenforce, Cmd.adbPush], s, .error .pushFailed)
  else if ¬ hasSub (("Success").data) env.instOut.data then
    ([Cmd.pmListPkg, Cmd.setenforce, Cmd.adbPush, Cmd.pmInstall], s,
      .error .installFailed)
  else
    ([Cmd.pmListPkg, Cmd.setenforce, Cmd.adbPush, Cmd.pmInstall],
      { s with appInstalled := true }, .ok ())

/-- Model of `remove_apk(package)` (exynex.py lines 910-935): run
`pm uninstall` and raise `SystemExit(1)` unless its output contains
`Success`. -/
def remove_apk (env : Env) (s : NetState) : Res Unit :=
  if hasSub (("Success").data) env.uninstallOut.data then
    ([Cmd.pmUninstall], { s with appInstalled := false }, .ok ())
  else
    ([Cmd.pmUninstall], s, .error .uninstallFailed)

/-- Model of `check_command_line` (exynex.py lines 39-69): abort when the
apk path does not exist or the report file cannot be opened for writing.
No external command is issued. -/
def check_command_line (env : Env) : Except Err Unit :=
  if env.apkExists then
    if env.outputWritable then .ok () else .error .outputWriteFailed
  else .error .apkMissing

/-- Model of `start_jadx` (exynex.py lines 72-100): skipped when the
decompiled resources are already present; otherwise run jadx and abort on
an `OSError`. -/
def start_jadx (env : Env) : List Cmd × Except Err Unit :=
  if env.jadxCached then ([], .ok ())
  else if env.jadxOk then ([Cmd.jadxRun], .ok ())
  else ([Cmd.jadxRun], .error .jadxFailed)

/-- Model of `check_device()` (exynex.py lines 103-127): abort when
`adb devices | grep device$` prints nothing; on success also run the
magisk package probe (`is_magisk`). -/
def check_device (env : Env) : List Cmd × Except Err Unit :=
  if env.adbDevicesOut = "" then
    ([Cmd.adbDevices], .error .deviceUnavailable)
  else
    ([Cmd.adbDevices, Cmd.pmListMagisk], .ok ())

/-- Model of `get_badging(path_to_apk)` (exynex.py lines 130-197): one
`aapt dump badging` invocation followed by four local text extractions;
abort at the first of the five outputs that is empty. -/
def get_badging (env : Env) : Except Err Unit :=
  if env.badgingOut = "" then .error .badgingFailed
  else if env.pkgOut = "" then .error .packageNameFailed
  else if env.appNameOut = "" then .error .appNameFailed
  else if env.versionOut = "" then .error .versionFailed
  else if env.versionCodeOut = "" then .error .versionCodeFailed
  else .ok ()

/-- Model of `perform_static_analysis` (exynex.py lines 246-424): the only
way this stage can abort the run is the unguarded manifest read/parse at
its start; all its probe commands merely log on failure. -/
def perform_static_analysis (env : Env) : Except Err Unit :=
  if env.manifestOk then .ok () else .error .manifestReadFailed

/-- Model of `perform_dynamic_analysis(...)` (exynex.py lines 671-721):
`get_uid`, `set_iptables`, `start_mitm`, `start_application`, the `activity`
observation window, `get_geo`, `stop_application`, `stop_mitm`,
`unset_iptables`, then the capture read whose `IOError` is caught and whose
`finally` block calls `stop_mitm()` once more.  Any raise propagates
immediately (there is no handler), so an aborted stage skips everything
after it.  The capture read only affects the report contents, never the
control flow or the traced commands, and is therefore not a parameter. -/
def perform_dynamic_analysis (env : Env) (s : NetState) : Res Unit :=
  match get_uid env.dumpsysOut.data with
  | .error e => ([Cmd.dumpsysGrep], s, .error e)
  | .ok _ =>
  match set_iptables env s with
  | (t1, s1, .error e) => (Cmd.dumpsysGrep :: t1, s1, .error e)
  | (t1, s1, .ok _) =>
  match start_mitm env s1 with
  | (t2, s2, .error e) => (Cmd.dumpsysGrep :: (t1 ++ t2), s2, .error e)
  | (t2, s2, .ok _) =>
  match start_application env s2 with
  | (t3, s3, .error e) => (Cmd.dumpsysGrep :: (t1 ++ t2 ++ t3), s3, .error e)
  | (t3, s3, .ok _) =>
  let t4 := [Cmd.activityWait, Cmd.geoDump]
  match stop_application env s3 with
  | (t5, s5, .error e) =>
      (Cmd.dumpsysGrep :: (t1 ++ t2 ++ t3 ++ t4 ++ t5), s5, .error e)
  | (t5, s5, .ok _) =>
  match stop_mitm env s5 with
  | (t6, s6, _) =>
  match unset_iptables env s6 with
  | (t7, s7, .error e) =>
      (Cmd.dumpsysGrep :: (t1 ++ t2 ++ t3 ++ t4 ++ t5 ++ t6 ++ t7), s7,
        .error e)
  | (t7, s7, .ok _) =>
  match stop_mitm env s7 with
  | (t8, s8, _) =>
      (Cmd.dumpsysGrep :: (t1 ++ t2 ++ t3 ++ t4 ++ t5 ++ t6 ++ t7 ++ t8),
        s8, .ok ())

/-- The stages of `main(...)` (exynex.py lines 964-978) up to and including
`perform_dynamic_analysis`, i.e. everything that runs before the
`remove_apk` call: `check_command_line`, `start_jadx`, `check_device`,
`get_badging`, `install_apk`, `perform_static_analysis`,
`perform_dynamic_analysis`.  An abort anywhere propagates out (there is no
try/except or finally around these calls). -/
def mainBeforeUninstall (env : Env) : Res Unit :=
  match check_command_line env with
  | .error e => ([], initState, .error e)
  | .ok _ =>
  match start_jadx env with
  | (tj, .error e) => (tj, initState, .error e)
  | (tj, .ok _) =>
  match check_device env with
  | (td, .error e) => (tj ++ td, initState, .error e)
  | (td, .ok _) =>
  match get_badging env with
  | .error e => (tj ++ td ++ [Cmd.aaptBadging], initState, .error e)
  | .ok _ =>
  match install_apk env initState with
  | (ti, si, .error e) => (tj ++ td ++ [Cmd.aaptBadging] ++ ti, si, .error e)
  | (ti, si, .ok _) =>
  match perform_static_analysis env with
  | .error e => (tj ++ td ++ [Cmd.aaptBadging] ++ ti, si, .error e)
  | .ok _ =>
  match perform_dynamic_analysis env si with
  | (tdyn, sd, r) =>
      (tj ++ td ++ [Cmd.aaptBadging] ++ ti ++ [Cmd.staticAnalysis] ++ tdyn,
        sd, r)

/-- Model of `main(...)` (exynex.py lines 964-978): the pre-uninstall
stages, then `remove_apk`, then `make_report` (which issues no external
command and is assumed to succeed — the report path was verified writable
by `check_command_line`).  `remove_apk` is reached only when every earlier
stage returned normally, because each `SystemExit` propagates out of
`main`. -/
def mainRun (env : Env) : Res Unit :=
  match mainBeforeUninstall env with
  | (t, s, .error e) => (t, s, .error e)
  | (t, s, .ok _) =>
  match remove_apk env s with
  | (tu, su, r) => (t ++ tu, su, r)

/-- Number of `pm uninstall` invocations in a trace. -/
def countUninstall : List Cmd → Nat
  | [] => 0
  | c :: t => (if c = Cmd.pmUninstall then 1 else 0) + countUninstall t

/-- Environment in which the host phase of `set_iptables` fails: the
REDIRECT rule insertion prints an error while everything before it
succeeded. -/
def envHostFail : Env := { goodEnv with retIpt5 := "iptables: error" }

/-- Environment in which `check_device` fails: `adb devices | grep device$`
prints nothing. -/
def envNoDevice : Env := { goodEnv with adbDevicesOut := "" }

/-- Environment in which the launch verification fails: after the monkey
intent, `adb shell ps | grep <pkg>` prints nothing. -/
def envLaunchFail : Env := { goodEnv with psGrepOut := "" }

/-- Environment in which the spawned mitmdump process dies during the
settle sleep of `start_mitm`. -/
def envMitmExit : Env := { goodEnv with mitmExitsEarly := true }

/-- Environment in which the stop verification fails: after
`am force-stop`, `adb shell ps -p <pid> | grep <pid>` still shows the
process. -/
def envStopFail : Env := { goodEnv with psPidOut := "1234 com.example.app" }

/-- Environment in which the second device-phase command of `set_iptables`
(the uid-owner ACCEPT) prints an error. -/
def envDevPhaseFail : Env := { goodEnv with retAccept := "iptables: error" }

end Exynex

deriving instance DecidableEq for Except

namespace Exynex

/-! ## Helper lemmas -/

theorem countUninstall_append (a b : List Cmd) :
    countUninstall (a ++ b) = countUninstall a + countUninstall b := by
  induction a with
  | nil => simp [countUninstall]
  | cons c t ih => simp [countUninstall, ih, Nat.add_assoc]

theorem cz_set (env : Env) (s : NetState) :
    countUninstall (set_iptables env s).1 = 0 := by
  by_cases h1 : env.retDrop = "" <;> by_cases h2 : env.retAccept = "" <;>
    cases hp : env.platform <;>
    by_cases h3 : env.retIpt1 = "" <;> by_cases h4 : env.retIpt5 = "" <;>
    simp [set_iptables, h1, h2, h3, h4, hp, countUninstall]

theorem cz_unset (env : Env) (s : NetState) :
    countUninstall (unset_iptables env s).1 = 0 := by
  by_cases h1 : env.retUnAccept = "" <;> by_cases h2 : env.retUnNat = "" <;>
    cases hp : env.platform <;> by_cases h3 : env.retUnHostNat = "" <;>
    simp [unset_iptables, h1, h2, h3, hp, countUninstall]

theorem cz_stop_mitm (env : Env) (s : NetState) :
    countUninstall (stop_mitm env s).1 = 0 := by
  cases hp : env.platform <;> simp [stop_mitm, hp, countUninstall]

theorem cz_start_mitm (env : Env) (s : NetState) :
    countUninstall (start_mitm env s).1 = 0 := by
  simp [start_mitm, pyBoolOfReturncode, countUninstall]

theorem cz_start_app (env : Env) (s : NetState) :
    countUninstall (start_application env s).1 = 0 := by
  by_cases h : env.psGrepOut = "" <;> cases hp : env.platform <;>
    simp [start_application, stop_mitm, h, hp, countUninstall]

theorem cz_stop_app (env : Env) (s : NetState) :
    countUninstall (stop_application env s).1 = 0 := by
  by_cases h : env.psPidOut = "" <;> cases hp : env.platform <;>
    simp [stop_application, stop_mitm, h, hp, countUninstall]

theorem cz_install (env : Env) (s : NetState) :
    countUninstall (install_apk env s).1 = 0 := by
  unfold install_apk
  repeat' split
  all_goals simp [countUninstall]

theorem cz_dyn (env : Env) (s : NetState) :
    countUninstall (perform_dynamic_analysis env s).1 = 0 := by
  unfold perform_dynamic_analysis
  cases hg : get_uid env.dumpsysOut.data with
  | error e => simp [countUninstall]
  | ok u =>
  rcases h1 : set_iptables env s with ⟨t1, s1, r1⟩
  have c1 : countUninstall t1 = 0 := by
    have h := cz_set env s; rw [h1] at h; exact h
  cases r1 with
  | error e => simp [countUninstall, countUninstall_append, c1]
  | ok _ =>
  dsimp only
  rcases hm : start_mitm env s1 with ⟨t2, s2, r2⟩
  have c2 : countUninstall t2 = 0 := by
    have h := cz_start_mitm env s1; rw [hm] at h; exact h
  cases r2 with
  | error e => simp [countUninstall, countUninstall_append, c1, c2]
  | ok _ =>
  dsimp only
  rcases ha : start_application env s2 with ⟨t3, s3, r3⟩
  have c3 : countUninstall t3 = 0 := by
    have h := cz_start_app env s2; rw [ha] at h; exact h
  cases r3 with
  | error e => simp [countUninstall, countUninstall_append, c1, c2, c3]
  | ok _ =>
  dsimp only
  rcases hs : stop_application env s3 with ⟨t5, s5, r5⟩
  have c5 : countUninstall t5 = 0 := by
    have h := cz_stop_app env s3; rw [hs] at h; exact h
  cases r5 with
  | error e => simp [countUninstall, countUninstall_append, c1, c2, c3, c5]
  | ok _ =>
  dsimp only
  rcases h7 : unset_iptables env (stop_mitm env s5).2.1 with ⟨t7, s7, r7⟩
  have c7 : countUninstall t7 = 0 := by
    have h := cz_unset env (stop_mitm env s5).2.1; rw [h7] at h; exact h
  cases r7 with
  | error e =>
    simp [countUninstall, countUninstall_append, c1, c2, c3, c5, c7, cz_stop_mitm]
  | ok _ =>
    simp [countUninstall, countUninstall_append, c1, c2, c3, c5, c7, cz_stop_mitm]

theorem cz_jadx (env : Env) : countUninstall (start_jadx env).1 = 0 := by
  unfold start_jadx
  repeat' split
  all_goals simp [countUninstall]

theorem cz_check_device (env : Env) : countUninstall (check_device env).1 = 0 := by
  unfold check_device
  split
  all_goals simp [countUninstall]

theorem cz_mainBefore (env : Env) :
    countUninstall (mainBeforeUninstall env).1 = 0 := by
  unfold mainBeforeUninstall
  cases hc : check_command_line env with
  | error e => simp [countUninstall]
  | ok _ =>
  rcases hj : start_jadx env with ⟨tj, rj⟩
  have cj : countUninstall tj = 0 := by
    have h := cz_jadx env; rw [hj] at h; exact h
  cases rj with
  | error e => simp [countUninstall, cj]
  | ok _ =>
  rcases hd : check_device env with ⟨td, rd⟩
  have cd : countUninstall td = 0 := by
    have h := cz_check_device env; rw [hd] at h; exact h
  cases rd with
  | error e => simp [countUninstall, countUninstall_append, cj, cd]
  | ok _ =>
  cases hb : get_badging env with
  | error e => simp [countUninstall, countUninstall_append, cj, cd]
  | ok _ =>
  rcases hi : install_apk env initState with ⟨ti, si, ri⟩
  have ci : countUninstall ti = 0 := by
    have h := cz_install env initState; rw [hi] at h; exact h
  cases ri with
  | error e => simp [countUninstall, countUninstall_append, cj, cd, ci]
  | ok _ =>
  cases hst : perform_static_analysis env with
  | error e => simp [countUninstall, countUninstall_append, cj, cd, ci]
  | ok _ =>
  simp [countUninstall, countUninstall_append, cj, cd, ci, cz_dyn]

theorem remove_apk_trace (env : Env) (s : NetState) :
    (remove_apk env s).1 = [Cmd.pmUninstall] := by
  unfold remove_apk
  split
  all_goals rfl

/-- Successful run of `set_iptables` on linux: both device commands and
both checked host commands return empty output. -/
theorem set_iptables_ok (env : Env) (s : NetState)
    (hp : env.platform = Platform.linux)
    (h1 : env.retDrop = "") (h2 : env.retAccept = "")
    (h3 : env.retIpt1 = "") (h4 : env.retIpt5 = "") :
    set_iptables env s =
      ([Cmd.devDrop, Cmd.devAccept, Cmd.hostNatFlush, Cmd.hostFwd4,
        Cmd.hostFwd6, Cmd.hostNoRedirect, Cmd.hostRedirAdd],
       { s with devEgressDrop := true, hostRedirect := true }, .ok ()) := by
  simp [set_iptables, hp, h1, h2, h3, h4]

/-- `start_mitm` when the process survives the settle sleep. -/
theorem start_mitm_run (env : Env) (s : NetState)
    (hm : env.mitmExitsEarly = false) :
    start_mitm env s =
      ([Cmd.mitmSpawn], { s with mitmRunning := true }, .ok ()) := by
  simp [start_mitm, pyBoolOfReturncode, hm]

/-- `start_application` when the post-launch `ps` check sees the app. -/
theorem start_application_ok (env : Env) (s : NetState)
    (h : env.psGrepOut ≠ "") :
    start_application env s =
      ([Cmd.monkeyLaunch, Cmd.psGrep], { s with appRunning := true }, .ok ()) := by
  simp [start_application, h]

/-- `start_application` on linux when the post-launch `ps` check is empty:
`stop_mitm` runs and the launch error is raised. -/
theorem start_application_fail (env : Env) (s : NetState)
    (hp : env.platform = Platform.linux) (h : env.psGrepOut = "") :
    start_application env s =
      ([Cmd.monkeyLaunch, Cmd.psGrep, Cmd.mitmPkill],
       { s with mitmRunning := false, appRunning := false },
       .error .launchFailed) := by
  simp [start_application, stop_mitm, h, hp]

/-- `stop_application` when the app is gone after `am force-stop`. -/
theorem stop_application_ok (env : Env) (s : NetState)
    (h : env.psPidOut = "") :
    stop_application env s =
      ([Cmd.forceStop, Cmd.psPid], { s with appRunning := false }, .ok ()) := by
  simp [stop_application, h]

/-- `stop_application` on linux when the app is still observed after
`am force-stop`: `stop_mitm` runs and the stop error is raised. -/
theorem stop_application_fail (env : Env) (s : NetState)
    (hp : env.platform = Platform.linux) (h : env.psPidOut ≠ "") :
    stop_application env s =
      ([Cmd.forceStop, Cmd.psPid, Cmd.mitmPkill],
       { s with mitmRunning := false, appRunning := true },
       .error .stopFailed) := by
  simp [stop_application, stop_mitm, h, hp]

/-- `stop_mitm` on linux. -/
theorem stop_mitm_linux (env : Env) (s : NetState)
    (hp : env.platform = Platform.linux) :
    stop_mitm env s = ([Cmd.mitmPkill], { s with mitmRunning := false }, .ok ()) := by
  simp [stop_mitm, hp]

/-- Successful `unset_iptables` on linux. -/
theorem unset_iptables_ok (env : Env) (s : NetState)
    (hp : env.platform = Platform.linux)
    (h1 : env.retUnAccept = "") (h2 : env.retUnNat = "")
    (h3 : env.retUnHostNat = "") :
    unset_iptables env s =
      ([Cmd.unsetDevAccept, Cmd.unsetDevNatFlush, Cmd.unsetHostNatFlush],
       { s with devEgressDrop := false, hostRedirect := false }, .ok ()) := by
  simp [unset_iptables, hp, h1, h2, h3]

/-- Bounds for the modelled `activity` loop: starting `passed` seconds
after the anchor with `passed ≤ T`, the loop sleeps more than `T - passed`
and at most `T - passed + 2` seconds. -/
theorem activity_bound :
    ∀ (k passed T : Nat), T - passed ≤ k → passed ≤ T →
      T - passed < activity passed T ∧ activity passed T ≤ (T - passed) + 2 := by
  intro k
  induction k with
  | zero =>
    intro passed T hk hpt
    have h2 : ¬ (passed + 2 ≤ T) := by omega
    rw [activity, dif_pos hpt, activity, dif_neg h2]
    omega
  | succ k ih =>
    intro passed T hk hpt
    rw [activity, dif_pos hpt]
    by_cases h2 : passed + 2 ≤ T
    · have := ih (passed + 2) T (by omega) h2
      omega
    · rw [activity, dif_neg h2]
      omega

theorem idxEq_none_iff (l : List Char) : idxEq l = none ↔ '=' ∉ l := by
  induction l with
  | nil => simp [idxEq]
  | cons c cs ih =>
    by_cases hc : c = '='
    · simp [idxEq, hc]
    · simp [idxEq, hc, ih]
      exact fun _ h => hc h.symm

theorem idxEq_some_mem (l : List Char) (i : Nat) (h : idxEq l = some i) :
    '=' ∈ l := by
  by_contra hn
  rw [(idxEq_none_iff l).mpr hn] at h
  exact Option.noConfusion h

/-! ## Claim theorems -/

/-- Claim C1, counterexample to the claim as stated: with every command
healthy except the host REDIRECT rule insertion, `set_iptables` reports the
host-phase error while the device is still under the default-deny egress
policy (`devEgressDrop = true`), no interception process is listening, and
no restore command (`iptables -P OUTPUT ACCEPT`) was issued — the device
phase is not rolled back before the error is reported. -/
theorem host_phase_fail_rollback_cex :
    (set_iptables envHostFail initState).2.2 = .error .hostNetworkSetupFailed ∧
    (set_iptables envHostFail initState).2.1.devEgressDrop = true ∧
    (set_iptables envHostFail initState).2.1.mitmRunning = false ∧
    Cmd.unsetDevAccept ∉ (set_iptables envHostFail initState).1 := by
  decide

/-- Claim C1 (amended): for every run in which the device phase of
`set_iptables` succeeds and the host phase then reports an error, the
function raises the host-setup error immediately, with no rollback: the
trace contains no device-restore command, the device is left with the
default-deny egress policy, and — at pipeline level, where `set_iptables`
runs before `start_mitm` — no interception process is listening when the
error propagates. -/
theorem host_phase_fail_no_rollback (env : Env) (s : NetState)
    (hp : env.platform = Platform.linux)
    (h1 : env.retDrop = "") (h2 : env.retAccept = "")
    (hh : env.retIpt1 ≠ "" ∨ env.retIpt5 ≠ "")
    (huid : ∃ u, get_uid env.dumpsysOut.data = Except.ok u) :
    (set_iptables env s).2.2 = .error .hostNetworkSetupFailed ∧
    (set_iptables env s).2.1.devEgressDrop = true ∧
    Cmd.unsetDevAccept ∉ (set_iptables env s).1 ∧
    (perform_dynamic_analysis env initState).2.2 = .error .hostNetworkSetupFailed ∧
    (perform_dynamic_analysis env initState).2.1.devEgressDrop = true ∧
    (perform_dynamic_analysis env initState).2.1.mitmRunning = false ∧
    Cmd.unsetDevAccept ∉ (perform_dynamic_analysis env initState).1 := by
  have key : ∀ s' : NetState,
      (set_iptables env s').1 = [Cmd.devDrop, Cmd.devAccept, Cmd.hostNatFlush,
        Cmd.hostFwd4, Cmd.hostFwd6, Cmd.hostNoRedirect, Cmd.hostRedirAdd] ∧
      (set_iptables env s').2.1.devEgressDrop = true ∧
      (set_iptables env s').2.1.mitmRunning = s'.mitmRunning ∧
      (set_iptables env s').2.2 = .error .hostNetworkSetupFailed := by
    intro s'
    by_cases hb1 : env.retIpt1 = "" <;> by_cases hb5 : env.retIpt5 = ""
    · rcases hh with hh | hh
      · exact absurd hb1 hh
      · exact absurd hb5 hh
    · simp [set_iptables, hp, h1, h2, hb1, hb5]
    · simp [set_iptables, hp, h1, h2, hb1, hb5]
    · simp [set_iptables, hp, h1, h2, hb1, hb5]
  obtain ⟨u, hu⟩ := huid
  have hdyn : perform_dynamic_analysis env initState =
      (Cmd.dumpsysGrep :: (set_iptables env initState).1,
       (set_iptables env initState).2.1, .error .hostNetworkSetupFailed) := by
    unfold perform_dynamic_analysis
    rw [hu]
    rcases hst : set_iptables env initState with ⟨t1, s1, r1⟩
    have hr : r1 = .error .hostNetworkSetupFailed := by
      have h := (key initState).2.2.2
      rw [hst] at h
      exact h
    subst hr
    rfl
  refine ⟨(key s).2.2.2, (key s).2.1, ?_, ?_, ?_, ?_, ?_⟩
  · rw [(key s).1]; decide
  · rw [hdyn]
  · rw [hdyn]; exact (key initState).2.1
  · rw [hdyn]; exact (key initState).2.2.1
  · rw [hdyn]
    simp [List.mem_cons, (key initState).1]

/-- Witness for the amended claim C1 at a concrete environment. -/
theorem host_phase_fail_no_rollback_wit :
    (set_iptables envHostFail initState).2.2 = .error .hostNetworkSetupFailed ∧
    (set_iptables envHostFail initState).2.1.devEgressDrop = true ∧
    Cmd.unsetDevAccept ∉ (set_iptables envHostFail initState).1 ∧
    (perform_dynamic_analysis envHostFail initState).2.2 =
      .error .hostNetworkSetupFailed ∧
    (perform_dynamic_analysis envHostFail initState).2.1.devEgressDrop = true ∧
    (perform_dynamic_analysis envHostFail initState).2.1.mitmRunning = false ∧
    Cmd.unsetDevAccept ∉ (perform_dynamic_analysis envHostFail initState).1 :=
  host_phase_fail_no_rollback envHostFail initState rfl rfl rfl
    (Or.inr (by decide)) ⟨("u0_a123").data, by decide⟩

/-- Claim C2, counterexample to the claim as stated: when the device check
aborts the run, `remove_apk` is never invoked (zero `pm uninstall`
commands in the whole trace), not exactly once. -/
theorem uninstall_skipped_on_abort_cex :
    (mainRun envNoDevice).2.2 = .error .deviceUnavailable ∧
    countUninstall (mainRun envNoDevice).1 = 0 := by
  decide

/-- Claim C2 (amended): `remove_apk` is invoked exactly once on every run
in which all stages before it return normally, and zero times on every run
that aborts at any earlier stage — the abort propagates out of `main` past
the uninstall call, so it is not a guaranteed final cleanup. -/
theorem uninstall_once_iff_reached (env : Env) :
    countUninstall (mainRun env).1 =
      (match (mainBeforeUninstall env).2.2 with
       | Except.ok _ => 1
       | Except.error _ => 0) := by
  unfold mainRun
  rcases hmb : mainBeforeUninstall env with ⟨t, s, r⟩
  have ht : countUninstall t = 0 := by
    have h := cz_mainBefore env
    rw [hmb] at h
    exact h
  cases r with
  | error e => simpa [countUninstall] using ht
  | ok _ =>
    dsimp only
    rcases hrm : remove_apk env s with ⟨tu, su, ru⟩
    have htu : tu = [Cmd.pmUninstall] := by
      have h := remove_apk_trace env s
      rw [hrm] at h
      exact h
    subst htu
    simp [countUninstall, countUninstall_append, ht]

/-- Witness for the amended claim C2 on the all-healthy environment. -/
theorem uninstall_once_wit :
    countUninstall (mainRun goodEnv).1 =
      (match (mainBeforeUninstall goodEnv).2.2 with
       | Except.ok _ => 1
       | Except.error _ => 0) :=
  uninstall_once_iff_reached goodEnv

/-- Claim C3, counterexample to the claim as stated: on the all-healthy
run the teardown executes app-stop (`am force-stop`) before proxy-stop
(`pkill mitmdump`) — not proxy first as claimed — and on a launch-failure
abort only the proxy is stopped: no network-clear command appears in the
trace and the device is left with the default-deny egress policy. -/
theorem teardown_order_cex :
    ((perform_dynamic_analysis goodEnv initState).2.2 = .ok () ∧
     (perform_dynamic_analysis goodEnv initState).1 =
       [Cmd.dumpsysGrep, Cmd.devDrop, Cmd.devAccept, Cmd.hostNatFlush,
        Cmd.hostFwd4, Cmd.hostFwd6, Cmd.hostNoRedirect, Cmd.hostRedirAdd,
        Cmd.mitmSpawn, Cmd.monkeyLaunch, Cmd.psGrep, Cmd.activityWait,
        Cmd.geoDump, Cmd.forceStop, Cmd.psPid, Cmd.mitmPkill,
        Cmd.unsetDevAccept, Cmd.unsetDevNatFlush, Cmd.unsetHostNatFlush,
        Cmd.mitmPkill]) ∧
    ((perform_dynamic_analysis envLaunchFail initState).2.2 =
       .error .launchFailed ∧
     Cmd.unsetDevAccept ∉ (perform_dynamic_analysis envLaunchFail initState).1 ∧
     (perform_dynamic_analysis envLaunchFail initState).2.1.devEgressDrop = true) := by
  decide

/-- Claim C3 (amended): on the normal success path the teardown order is
stop app, then stop interception proxy, then clear network rules, with one
more proxy stop after the capture read; on an abort raised by the launch
check or by the stop check, only the proxy is stopped before the error
propagates — the network rules are not cleared and the device keeps the
default-deny policy.  (The remaining abort handler named by the claim, the
proxy-start failure in `start_mitm`, is unreachable in the source: see the
claim C4 theorem.) -/
theorem teardown_order_actual (env : Env) (s : NetState)
    (hp : env.platform = Platform.linux)
    (h1 : env.retDrop = "") (h2 : env.retAccept = "")
    (h3 : env.retIpt1 = "") (h4 : env.retIpt5 = "")
    (hm : env.mitmExitsEarly = false)
    (h5 : env.retUnAccept = "") (h6 : env.retUnNat = "")
    (h7 : env.retUnHostNat = "")
    (huid : ∃ u, get_uid env.dumpsysOut.data = Except.ok u) :
    (env.psGrepOut ≠ "" → env.psPidOut = "" →
      perform_dynamic_analysis env s =
        ([Cmd.dumpsysGrep, Cmd.devDrop, Cmd.devAccept, Cmd.hostNatFlush,
          Cmd.hostFwd4, Cmd.hostFwd6, Cmd.hostNoRedirect, Cmd.hostRedirAdd,
          Cmd.mitmSpawn, Cmd.monkeyLaunch, Cmd.psGrep, Cmd.activityWait,
          Cmd.geoDump, Cmd.forceStop, Cmd.psPid, Cmd.mitmPkill,
          Cmd.unsetDevAccept, Cmd.unsetDevNatFlush, Cmd.unsetHostNatFlush,
          Cmd.mitmPkill],
         { s with devEgressDrop := false, hostRedirect := false,
                  mitmRunning := false, appRunning := false },
         .ok ())) ∧
    (env.psGrepOut = "" →
      perform_dynamic_analysis env s =
        ([Cmd.dumpsysGrep, Cmd.devDrop, Cmd.devAccept, Cmd.hostNatFlush,
          Cmd.hostFwd4, Cmd.hostFwd6, Cmd.hostNoRedirect, Cmd.hostRedirAdd,
          Cmd.mitmSpawn, Cmd.monkeyLaunch, Cmd.psGrep, Cmd.mitmPkill],
         { s with devEgressDrop := true, hostRedirect := true,
                  mitmRunning := false, appRunning := false },
         .error .launchFailed)) ∧
    (env.psGrepOut ≠ "" → env.psPidOut ≠ "" →
      perform_dynamic_analysis env s =
        ([Cmd.dumpsysGrep, Cmd.devDrop, Cmd.devAccept, Cmd.hostNatFlush,
          Cmd.hostFwd4, Cmd.hostFwd6, Cmd.hostNoRedirect, Cmd.hostRedirAdd,
          Cmd.mitmSpawn, Cmd.monkeyLaunch, Cmd.psGrep, Cmd.activityWait,
          Cmd.geoDump, Cmd.forceStop, Cmd.psPid, Cmd.mitmPkill],
         { s with devEgressDrop := true, hostRedirect := true,
                  mitmRunning := false, appRunning := true },
         .error .stopFailed)) := by
  obtain ⟨u, hu⟩ := huid
  refine ⟨?_, ?_, ?_⟩
  · intro hg hpid
    unfold perform_dynamic_analysis
    rw [hu]
    rw [set_iptables_ok env s hp h1 h2 h3 h4]
    dsimp only
    rw [start_mitm_run env _ hm]
    dsimp only
    rw [start_application_ok env _ hg]
    dsimp only
    rw [stop_application_ok env _ hpid]
    dsimp only
    rw [stop_mitm_linux env _ hp]
    dsimp only
    rw [unset_iptables_ok env _ hp h5 h6 h7]
    dsimp only
    rw [stop_mitm_linux env _ hp]
    simp
  · intro hg
    unfold perform_dynamic_analysis
    rw [hu]
    rw [set_iptables_ok env s hp h1 h2 h3 h4]
    dsimp only
    rw [start_mitm_run env _ hm]
    dsimp only
    rw [start_application_fail env _ hp hg]
    simp
  · intro hg hpid
    unfold perform_dynamic_analysis
    rw [hu]
    rw [set_iptables_ok env s hp h1 h2 h3 h4]
    dsimp only
    rw [start_mitm_run env _ hm]
    dsimp only
    rw [start_application_ok env _ hg]
    dsimp only
    rw [stop_application_fail env _ hp hpid]
    simp

/-- Witness for the amended claim C3: the success-path conjunct at the
all-healthy environment, and the abort conjuncts at the launch-failure and
stop-failure environments. -/
theorem teardown_order_wit :
    (perform_dynamic_analysis goodEnv initState =
      ([Cmd.dumpsysGrep, Cmd.devDrop, Cmd.devAccept, Cmd.hostNatFlush,
        Cmd.hostFwd4, Cmd.hostFwd6, Cmd.hostNoRedirect, Cmd.hostRedirAdd,
        Cmd.mitmSpawn, Cmd.monkeyLaunch, Cmd.psGrep, Cmd.activityWait,
        Cmd.geoDump, Cmd.forceStop, Cmd.psPid, Cmd.mitmPkill,
        Cmd.unsetDevAccept, Cmd.unsetDevNatFlush, Cmd.unsetHostNatFlush,
        Cmd.mitmPkill],
       { initState with devEgressDrop := false, hostRedirect := false,
                        mitmRunning := false, appRunning := false },
       .ok ())) ∧
    (perform_dynamic_analysis envLaunchFail initState =
      ([Cmd.dumpsysGrep, Cmd.devDrop, Cmd.devAccept, Cmd.hostNatFlush,
        Cmd.hostFwd4, Cmd.hostFwd6, Cmd.hostNoRedirect, Cmd.hostRedirAdd,
        Cmd.mitmSpawn, Cmd.monkeyLaunch, Cmd.psGrep, Cmd.mitmPkill],
       { initState with devEgressDrop := true, hostRedirect := true,
                        mitmRunning := false, appRunning := false },
       .error .launchFailed)) ∧
    (perform_dynamic_analysis envStopFail initState =
      ([Cmd.dumpsysGrep, Cmd.devDrop, Cmd.devAccept, Cmd.hostNatFlush,
        Cmd.hostFwd4, Cmd.hostFwd6, Cmd.hostNoRedirect, Cmd.hostRedirAdd,
        Cmd.mitmSpawn, Cmd.monkeyLaunch, Cmd.psGrep, Cmd.activityWait,
        Cmd.geoDump, Cmd.forceStop, Cmd.psPid, Cmd.mitmPkill],
       { initState with devEgressDrop := true, hostRedirect := true,
                        mitmRunning := false, appRunning := true },
       .error .stopFailed)) :=
  ⟨(teardown_order_actual goodEnv initState rfl rfl rfl rfl rfl rfl rfl rfl
      rfl ⟨("u0_a123").data, by decide⟩).1 (by decide) rfl,
   (teardown_order_actual envLaunchFail initState rfl rfl rfl rfl rfl rfl rfl
      rfl rfl ⟨("u0_a123").data, by decide⟩).2.1 rfl,
   (teardown_order_actual envStopFail initState rfl rfl rfl rfl rfl rfl rfl
      rfl rfl ⟨("u0_a123").data, by decide⟩).2.2 (by decide) (by decide)⟩

/-- Claim C4 (code bug): when the spawned mitmdump process has exited
within the 5-second settle delay, `start_mitm` nevertheless returns the
process handle — the `returncode` attribute it reads is still `None`
because the code never polls the process, so `bool(retcode)` is `False` —
and the pipeline proceeds into the observation stage and completes, with
no `ProxyStartFailed` raised. -/
theorem mitm_early_exit_undetected :
    (start_mitm envMitmExit initState).2.2 = .ok () ∧
    (start_mitm envMitmExit initState).2.1.mitmRunning = false ∧
    (perform_dynamic_analysis envMitmExit initState).2.2 = .ok () ∧
    Cmd.activityWait ∈ (perform_dynamic_analysis envMitmExit initState).1 := by
  decide

/-- Claim C5 (confirmed): when the three clear commands succeed — which is
what they do when no rule is installed, since `iptables -P OUTPUT ACCEPT`
and `iptables -t nat -F` succeed silently on a clean table —
`unset_iptables` reports no error, and if nothing was applied
(`devEgressDrop` and `hostRedirect` both false) it leaves the state
exactly unchanged. -/
theorem clear_without_apply_noop (env : Env) (s : NetState)
    (h1 : env.retUnAccept = "") (h2 : env.retUnNat = "")
    (h3 : env.retUnHostNat = "") :
    (unset_iptables env s).2.2 = .ok () ∧
    (s.devEgressDrop = false → s.hostRedirect = false →
      (unset_iptables env s).2.1 = s) := by
  constructor
  · cases hp : env.platform <;> simp [unset_iptables, h1, h2, h3, hp]
  · intro hd hh
    rcases s with ⟨d, hr, mr, ar, ai⟩
    dsimp only at hd hh
    subst hd
    subst hh
    cases hp : env.platform <;> simp [unset_iptables, h1, h2, h3, hp]

/-- Witness for claim C5 on the all-healthy environment and the clean
initial state. -/
theorem clear_without_apply_noop_wit :
    (unset_iptables goodEnv initState).2.2 = .ok () ∧
    (initState.devEgressDrop = false → initState.hostRedirect = false →
      (unset_iptables goodEnv initState).2.1 = initState) :=
  clear_without_apply_noop goodEnv initState rfl rfl rfl

/-- Claim C6 (confirmed): the observation wait entered `d` seconds after
the anchor, with `0 ≤ d < T`, blocks for more than `T - d` and at most
`T - d + 2` seconds (the 2-second polling granularity of the loop) — the
elapsed time is recomputed from the anchor, so the pre-call delay `d` is
absorbed into the window rather than added on top of it. -/
theorem wait_anchored_window (d T : Nat) (h : d < T) :
    T - d < activity d T ∧ activity d T ≤ (T - d) + 2 :=
  activity_bound (T - d) d T le_rfl (Nat.le_of_lt h)

/-- Witness for claim C6 at `d = 1`, `T = 4`. -/
theorem wait_anchored_window_wit :
    4 - 1 < activity 1 4 ∧ activity 1 4 ≤ (4 - 1) + 2 :=
  wait_anchored_window 1 4 (by norm_num)

/-- Claim C7 (confirmed): when a device-phase command of `set_iptables`
reports an error, the function aborts before the host phase — the trace is
exactly the two device commands, so no host command is invoked — the host
state is untouched, the failure is the device-setup error, and a
subsequent `unset_iptables` (whose clear commands succeed) reports no
error and returns the state to exactly the pre-setup state. -/
theorem device_phase_fail_aborts_early (env : Env) (s : NetState)
    (hd : env.retDrop ≠ "" ∨ env.retAccept ≠ "")
    (h1 : env.retUnAccept = "") (h2 : env.retUnNat = "")
    (h3 : env.retUnHostNat = "")
    (hs1 : s.devEgressDrop = false) (hs2 : s.hostRedirect = false) :
    (set_iptables env s).1 = [Cmd.devDrop, Cmd.devAccept] ∧
    (set_iptables env s).2.2 = .error .deviceNetworkSetupFailed ∧
    (set_iptables env s).2.1.hostRedirect = false ∧
    (unset_iptables env (set_iptables env s).2.1).2.2 = .ok () ∧
    (unset_iptables env (set_iptables env s).2.1).2.1 = s := by
  have hset : set_iptables env s =
      ([Cmd.devDrop, Cmd.devAccept],
       (if env.retDrop = "" then { s with devEgressDrop := true } else s),
       .error .deviceNetworkSetupFailed) := by
    rcases hd with hd | hd <;> simp [set_iptables, hd]
  refine ⟨by rw [hset], by rw [hset], ?_, ?_, ?_⟩
  · rw [hset]
    by_cases hdr : env.retDrop = "" <;> simp [hdr, hs2]
  · rw [hset]
    cases hp : env.platform <;>
      by_cases hdr : env.retDrop = "" <;>
      simp [unset_iptables, h1, h2, h3, hp, hdr]
  · rw [hset]
    rcases s with ⟨d, hr, mr, ar, ai⟩
    dsimp only at hs1 hs2
    subst hs1
    subst hs2
    cases hp : env.platform <;>
      by_cases hdr : env.retDrop = "" <;>
      simp [unset_iptables, h1, h2, h3, hp, hdr]

/-- Witness for claim C7: the uid-owner ACCEPT command fails on an
otherwise healthy environment, starting from the clean initial state. -/
theorem device_phase_fail_aborts_early_wit :
    (set_iptables envDevPhaseFail initState).1 = [Cmd.devDrop, Cmd.devAccept] ∧
    (set_iptables envDevPhaseFail initState).2.2 =
      .error .deviceNetworkSetupFailed ∧
    (set_iptables envDevPhaseFail initState).2.1.hostRedirect = false ∧
    (unset_iptables envDevPhaseFail
      (set_iptables envDevPhaseFail initState).2.1).2.2 = .ok () ∧
    (unset_iptables envDevPhaseFail
      (set_iptables envDevPhaseFail initState).2.1).2.1 = initState :=
  device_phase_fail_aborts_early envDevPhaseFail initState
    (Or.inr (by decide)) rfl rfl rfl rfl rfl

/-- Claim C8, counterexample to the claim as stated: the dump text
`userId=u0_a123x` contains the marker `userId=u0_a123`, yet `get_uid`
returns `u0_a123x` (the greedy `\S*` keeps consuming past the marker), not
`u0_a123`. -/
theorem uid_marker_resolution_cex :
    hasSub (("userId=u0_a123").data) (("userId=u0_a123x").data) = true ∧
    get_uid (("userId=u0_a123x").data) = .ok (("u0_a123x").data) ∧
    ("u0_a123x").data ≠ ("u0_a123").data := by
  decide

/-- Claim C8 (amended): for every process-manager dump text whose uid
marker matches — the per-token segments from the first `userId=` of a
token to the token's end — consist of exactly the single match
`userId=u0_a123`, `get_uid` returns the uid `u0_a123`, the text after the
`'='` of the marker. -/
theorem uid_marker_resolution (dump : List Char)
    (h : grepUserId dump = [("userId=u0_a123").data]) :
    get_uid dump = .ok (("u0_a123").data) := by
  unfold get_uid grepOutput
  rw [h]
  decide

/-- Witness for the amended claim C8 on a realistic dump line. -/
theorem uid_marker_resolution_wit :
    get_uid (("Packages: userId=u0_a123 gids=1001").data) =
      .ok (("u0_a123").data) :=
  uid_marker_resolution (("Packages: userId=u0_a123 gids=1001").data)
    (by decide)

/-- Claim C9 (confirmed): `stop_mitm` succeeds unconditionally (the
`pkill` result is ignored), so invoking it twice in succession succeeds
both times and the second invocation changes neither the state nor the
issued commands — stopping an already-stopped interception session is not
an error. -/
theorem stop_mitm_idempotent (env : Env) (s : NetState) :
    (stop_mitm env s).2.2 = .ok () ∧
    (stop_mitm env (stop_mitm env s).2.1).2.2 = .ok () ∧
    (stop_mitm env (stop_mitm env s).2.1).2.1 = (stop_mitm env s).2.1 ∧
    (stop_mitm env (stop_mitm env s).2.1).1 = (stop_mitm env s).1 := by
  cases hp : env.platform <;> simp [stop_mitm, hp]

/-- Witness for claim C9 on the all-healthy environment. -/
theorem stop_mitm_idempotent_wit :
    (stop_mitm goodEnv initState).2.2 = .ok () ∧
    (stop_mitm goodEnv (stop_mitm goodEnv initState).2.1).2.2 = .ok () ∧
    (stop_mitm goodEnv (stop_mitm goodEnv initState).2.1).2.1 =
      (stop_mitm goodEnv initState).2.1 ∧
    (stop_mitm goodEnv (stop_mitm goodEnv initState).2.1).1 =
      (stop_mitm goodEnv initState).1 :=
  stop_mitm_idempotent goodEnv initState

/-- Claim C10 (confirmed): on a pipeline output without any `'='` — in
particular the empty output produced when no `userId=` marker matches, as
the second conjunct states for `get_uid` itself — the slice computation
`uid.index('=')` raises an unhandled `ValueError` instead of reaching the
guarded clean-failure branch; the clean failure (`SystemExit`) is
reachable only for outputs that do contain `'='` but whose slice after the
first `'='` and before the last character is empty. -/
theorem get_uid_no_marker_value_error (raw : List Char) (h : '=' ∉ raw) :
    getUidRaw raw = .error .uidValueError ∧
    (∀ dump : List Char, grepUserId dump = [] →
      get_uid dump = .error .uidValueError) ∧
    (∀ r2 : List Char, getUidRaw r2 = .error .uidResolutionFailed →
      '=' ∈ r2 ∧ ∃ i, idxEq r2 = some i ∧ pySlice r2 i = []) := by
  refine ⟨?_, ?_, ?_⟩
  · unfold getUidRaw
    rw [(idxEq_none_iff raw).mpr h]
  · intro dump hd
    unfold get_uid grepOutput
    rw [hd]
    rfl
  · intro r2 h2
    unfold getUidRaw at h2
    cases hi : idxEq r2 with
    | none =>
      rw [hi] at h2
      exact absurd h2 (by simp)
    | some i =>
      rw [hi] at h2
      dsimp only at h2
      by_cases hs : pySlice r2 i = []
      · exact ⟨idxEq_some_mem r2 i hi, i, rfl, hs⟩
      · rw [if_neg hs] at h2
        exact absurd h2 (by simp)

/-- Witness for claim C10 on a concrete `'='`-free output. -/
theorem get_uid_no_marker_value_error_wit :
    getUidRaw (("no uid marker here").data) = .error .uidValueError ∧
    (∀ dump : List Char, grepUserId dump = [] →
      get_uid dump = .error .uidValueError) ∧
    (∀ r2 : List Char, getUidRaw r2 = .error .uidResolutionFailed →
      '=' ∈ r2 ∧ ∃ i, idxEq r2 = some i ∧ pySlice r2 i = []) :=
  get_uid_no_marker_value_error (("no uid marker here").data) (by decide)

end Exynex


